import Mathlib

/-!
Verification of the credit-scoring evaluator in `backend/prediction_helper.py`.

The evaluator is a pure function from applicant attributes to a triple
(default_probability, credit_score, rating).  Numeric inputs are modelled as
exact rationals (`ℚ`): on the score pipeline every intermediate quantity the
program compares or truncates is a rational whose Python floating-point
evaluation agrees with the exact value on all risk-score levels, so the
rational model is faithful to the observable behaviour.  Python's `int()`
truncation toward zero is modelled by `pyInt`.  The externally supplied
classifier bundle (model, optional scaler, feature-column list) is modelled
as an abstract function from the constructed feature row to a positive-class
probability that may fail (`Except`), covering every exception the Python
`try` block can catch (scaling failure, missing column, prediction failure).
-/

namespace CreditRisk

/-- Python `int()` applied to a rational: truncation toward zero. -/
def pyInt (q : ℚ) : ℤ := if 0 ≤ q then ⌊q⌋ else ⌈q⌉

/-- The dictionary built by `prepare_input` in `prediction_helper.py`:
all applicant attributes plus the derived `loan_to_income` ratio. -/
structure InputData where
  age : ℚ
  income : ℚ
  loan_amount : ℚ
  loan_tenure_months : ℚ
  avg_dpd_per_delinquency : ℚ
  delinquency_ratio : ℚ
  credit_utilization_ratio : ℚ
  num_open_accounts : ℚ
  loan_to_income : ℚ
  residence_type : String
  loan_purpose : String
  loan_type : String
deriving DecidableEq

/-- `prepare_input`: packs the raw arguments and computes
`loan_to_income = loan_amount / income if income > 0 else 0`. -/
def prepare_input (age income loan_amount loan_tenure_months
    avg_dpd_per_delinquency delinquency_ratio credit_utilization_ratio
    num_open_accounts : ℚ) (residence_type loan_purpose loan_type : String) :
    InputData :=
  { age := age
    income := income
    loan_amount := loan_amount
    loan_tenure_months := loan_tenure_months
    avg_dpd_per_delinquency := avg_dpd_per_delinquency
    delinquency_ratio := delinquency_ratio
    credit_utilization_ratio := credit_utilization_ratio
    num_open_accounts := num_open_accounts
    loan_to_income := if income > 0 then loan_amount / income else 0
    residence_type := residence_type
    loan_purpose := loan_purpose
    loan_type := loan_type }

/-- The `risk_score` accumulation in `calculate_credit_score`: starts at 0 and
adds each threshold-banded contribution in source order (age, loan-to-income,
delinquency ratio, credit utilization, average DPD, open accounts, residence
type, loan type). -/
def risk_score (d : InputData) : ℤ :=
  let r0 : ℤ := 0
  let r1 := r0 + (if d.age < 25 then 15 else if d.age < 35 then 10
    else if d.age < 50 then 5 else 0)
  let r2 := r1 + (if d.loan_to_income > 5 then 25 else if d.loan_to_income > 3 then 15
    else if d.loan_to_income > 2 then 10 else 0)
  let r3 := r2 + (if d.delinquency_ratio > 50 then 30 else if d.delinquency_ratio > 30 then 20
    else if d.delinquency_ratio > 10 then 10 else 0)
  let r4 := r3 + (if d.credit_utilization_ratio > 80 then 20
    else if d.credit_utilization_ratio > 50 then 10
    else if d.credit_utilization_ratio > 30 then 5 else 0)
  let r5 := r4 + (if d.avg_dpd_per_delinquency > 30 then 25
    else if d.avg_dpd_per_delinquency > 15 then 15
    else if d.avg_dpd_per_delinquency > 5 then 8 else 0)
  let r6 := r5 + (if d.num_open_accounts > 3 then 10
    else if d.num_open_accounts < 2 then 5 else 0)
  let r7 := r6 + (if d.residence_type = "Rented" then 10
    else if d.residence_type = "Mortgage" then 5 else 0)
  let r8 := r7 + (if d.loan_type = "Unsecured" then 15 else 0)
  r8

/-- The inner `get_rating` of `calculate_credit_score`, including its
`Undefined` default branch. -/
def get_rating (score : ℤ) : String :=
  if 300 ≤ score ∧ score < 500 then "Poor"
  else if 500 ≤ score ∧ score < 650 then "Average"
  else if 650 ≤ score ∧ score < 750 then "Good"
  else if 750 ≤ score ∧ score ≤ 900 then "Excellent"
  else "Undefined"

/-- `calculate_credit_score`: the heuristic scorer.  `base_score` and
`scale_length` are the Python keyword parameters whose defaults are 300 and
600; every caller in the repository uses the defaults. -/
def calculate_credit_score (d : InputData) (base_score scale_length : ℚ) :
    ℚ × ℤ × String :=
  let default_probability : ℚ := min ((risk_score d : ℚ) / 100) 0.99
  let non_default_probability := 1 - default_probability
  let credit_score := pyInt (base_score + non_default_probability * scale_length)
  (default_probability, credit_score, get_rating credit_score)

/-- The `full_data` feature dictionary built inside `predict` for the
model-backed path: raw fields, the guarded `loan_to_income`, one-hot
encodings, and the constant placeholder fields. -/
structure FullData where
  age : ℚ
  income : ℚ
  loan_amount : ℚ
  loan_tenure_months : ℚ
  number_of_open_accounts : ℚ
  credit_utilization_ratio : ℚ
  loan_to_income : ℚ
  delinquency_ratio : ℚ
  avg_dpd_per_delinquency : ℚ
  residence_type_Owned : ℚ
  residence_type_Rented : ℚ
  residence_type_Mortgage : ℚ
  loan_purpose_Education : ℚ
  loan_purpose_Home : ℚ
  loan_purpose_Personal : ℚ
  loan_type_Secured : ℚ
  loan_type_Unsecured : ℚ
  number_of_dependants : ℚ
  years_at_current_address : ℚ
  zipcode : ℚ
  sanction_amount : ℚ
  processing_fee : ℚ
  gst : ℚ
  net_disbursement : ℚ
  principal_outstanding : ℚ
  bank_balance_at_application : ℚ
  number_of_closed_accounts : ℚ
  enquiry_count : ℚ
deriving DecidableEq

/-- Construction of `full_data` inside `predict`. -/
def full_data (age income loan_amount loan_tenure_months
    avg_dpd_per_delinquency delinquency_ratio credit_utilization_ratio
    num_open_accounts : ℚ) (residence_type loan_purpose loan_type : String) :
    FullData :=
  { age := age
    income := income
    loan_amount := loan_amount
    loan_tenure_months := loan_tenure_months
    number_of_open_accounts := num_open_accounts
    credit_utilization_ratio := credit_utilization_ratio
    loan_to_income := if income > 0 then loan_amount / income else 0
    delinquency_ratio := delinquency_ratio
    avg_dpd_per_delinquency := avg_dpd_per_delinquency
    residence_type_Owned := if residence_type = "Owned" then 1 else 0
    residence_type_Rented := if residence_type = "Rented" then 1 else 0
    residence_type_Mortgage := if residence_type = "Mortgage" then 1 else 0
    loan_purpose_Education := if loan_purpose = "Education" then 1 else 0
    loan_purpose_Home := if loan_purpose = "Home" then 1 else 0
    loan_purpose_Personal := if loan_purpose = "Personal" then 1 else 0
    loan_type_Secured := if loan_type = "Secured" then 1 else 0
    loan_type_Unsecured := if loan_type = "Unsecured" then 1 else 0
    number_of_dependants := 2
    years_at_current_address := 3
    zipcode := 110001
    sanction_amount := loan_amount
    processing_fee := loan_amount * 0.02
    gst := loan_amount * 0.02 * 0.18
    net_disbursement := loan_amount * 0.98
    principal_outstanding := loan_amount * 0.5
    bank_balance_at_application := income * 0.3
    number_of_closed_accounts := 2
    enquiry_count := 1 }

/-- The externally supplied classifier bundle (`model_data.joblib`): the
scaling of the designated columns, the selection of the expected feature
columns, and `model.predict_proba(...)[0][1]` are abstracted as one function
from the constructed feature row to the positive-class probability; any
exception raised by any of those steps is an `Except.error`, which the
`try` block in `predict` catches. -/
structure ModelBundle where
  run : FullData → Except String ℚ

/-- The body of the `try` block in `predict`: invoke the classifier on the
feature row; on success derive the credit score by the `300 + 600·(1 − p)`
mapping (Python `int()` truncation) and the model-path rating bands
(≥750 Excellent, ≥650 Good, ≥500 Average, else Poor). -/
def modelPath (m : ModelBundle) (age income loan_amount loan_tenure_months
    avg_dpd_per_delinquency delinquency_ratio credit_utilization_ratio
    num_open_accounts : ℚ) (residence_type loan_purpose loan_type : String) :
    Except String (ℚ × ℤ × String) :=
  match m.run (full_data age income loan_amount loan_tenure_months
      avg_dpd_per_delinquency delinquency_ratio credit_utilization_ratio
      num_open_accounts residence_type loan_purpose loan_type) with
  | Except.error e => Except.error e
  | Except.ok default_probability =>
    let non_default_probability := 1 - default_probability
    let credit_score := pyInt (300 + non_default_probability * 600)
    let rating := if credit_score ≥ 750 then "Excellent"
      else if credit_score ≥ 650 then "Good"
      else if credit_score ≥ 500 then "Average"
      else "Poor"
    Except.ok (default_probability, credit_score, rating)

/-- `predict`: prepare the input; when a model bundle is available try the
model-backed path, falling back to `calculate_credit_score` on the prepared
input if it raises; when no model is available use the heuristic directly.
The result is always a plain triple: no error escapes to the caller. -/
def predict (m : Option ModelBundle) (age income loan_amount loan_tenure_months
    avg_dpd_per_delinquency delinquency_ratio credit_utilization_ratio
    num_open_accounts : ℚ) (residence_type loan_purpose loan_type : String) :
    ℚ × ℤ × String :=
  let input_data := prepare_input age income loan_amount loan_tenure_months
    avg_dpd_per_delinquency delinquency_ratio credit_utilization_ratio
    num_open_accounts residence_type loan_purpose loan_type
  match m with
  | some mb =>
    match modelPath mb age income loan_amount loan_tenure_months
        avg_dpd_per_delinquency delinquency_ratio credit_utilization_ratio
        num_open_accounts residence_type loan_purpose loan_type with
    | Except.ok r => r
    | Except.error _ => calculate_credit_score input_data 300 600
  | none => calculate_credit_score input_data 300 600

/-! ### Reference definitions transcribed from the specification (section 4.1)

These follow the spec's wording — independent threshold-banded contributions
summed into a risk score — and are compared against the source embedding. -/

/-- Spec band: age <25 → +15, <35 → +10, <50 → +5, else +0. -/
def ageContribution (age : ℚ) : ℤ :=
  if age < 25 then 15 else if age < 35 then 10 else if age < 50 then 5 else 0

/-- Spec band: loan_to_income >5 → +25, >3 → +15, >2 → +10. -/
def ltiContribution (lti : ℚ) : ℤ :=
  if lti > 5 then 25 else if lti > 3 then 15 else if lti > 2 then 10 else 0

/-- Spec band: delinquency_ratio >50 → +30, >30 → +20, >10 → +10. -/
def delinquencyContribution (dr : ℚ) : ℤ :=
  if dr > 50 then 30 else if dr > 30 then 20 else if dr > 10 then 10 else 0

/-- Spec band: credit_utilization_ratio >80 → +20, >50 → +10, >30 → +5. -/
def utilizationContribution (u : ℚ) : ℤ :=
  if u > 80 then 20 else if u > 50 then 10 else if u > 30 then 5 else 0

/-- Spec band: avg_dpd_per_delinquency >30 → +25, >15 → +15, >5 → +8. -/
def dpdContribution (dpd : ℚ) : ℤ :=
  if dpd > 30 then 25 else if dpd > 15 then 15 else if dpd > 5 then 8 else 0

/-- Spec band: num_open_accounts >3 → +10, <2 → +5. -/
def openAccountsContribution (n : ℚ) : ℤ :=
  if n > 3 then 10 else if n < 2 then 5 else 0

/-- Spec band: residence_type Rented → +10, Mortgage → +5, Owned → +0. -/
def residenceContribution (r : String) : ℤ :=
  if r = "Rented" then 10 else if r = "Mortgage" then 5 else 0

/-- Spec band: loan_type Unsecured → +15. -/
def loanTypeContribution (t : String) : ℤ :=
  if t = "Unsecured" then 15 else 0

/-- Spec reference risk score: the sum of the independent contributions. -/
def referenceRiskScore (d : InputData) : ℤ :=
  ageContribution d.age + ltiContribution d.loan_to_income
    + delinquencyContribution d.delinquency_ratio
    + utilizationContribution d.credit_utilization_ratio
    + dpdContribution d.avg_dpd_per_delinquency
    + openAccountsContribution d.num_open_accounts
    + residenceContribution d.residence_type
    + loanTypeContribution d.loan_type

/-- Spec: default_probability = min(risk_score / 100, 0.99). -/
def referenceDefaultProbability (d : InputData) : ℚ :=
  min ((referenceRiskScore d : ℚ) / 100) 0.99

/-- Spec: credit_score = 300 + (1 − default_probability) × 600, truncated
to integer. -/
def referenceCreditScore (d : InputData) : ℤ :=
  pyInt (300 + (1 - referenceDefaultProbability d) * 600)

/-- Spec rating bands as a partial assignment: [300,500) Poor,
[500,650) Average, [650,750) Good, [750,900] Excellent; scores outside
[300,900] are assigned no rating by the spec. -/
def referenceRating (score : ℤ) : Option String :=
  if 300 ≤ score ∧ score < 500 then some "Poor"
  else if 500 ≤ score ∧ score < 650 then some "Average"
  else if 650 ≤ score ∧ score < 750 then some "Good"
  else if 750 ≤ score ∧ score ≤ 900 then some "Excellent"
  else none

/-- Rank of a rating in the order Poor < Average < Good < Excellent. -/
def ratingRank (r : String) : ℕ :=
  if r = "Poor" then 0 else if r = "Average" then 1
  else if r = "Good" then 2 else if r = "Excellent" then 3 else 4

/-- A sample applicant used to instantiate universally quantified theorems. -/
def sampleInput : InputData :=
  prepare_input 30 500000 1000000 36 2 5 20 2 "Owned" "Personal" "Secured"

/-- Output-range predicate: credit score within [300, 900] and default
probability within [0, pmax]. -/
def outputWithin (r : ℚ × ℤ × String) (pmax : ℚ) : Prop :=
  300 ≤ r.2.1 ∧ r.2.1 ≤ 900 ∧ 0 ≤ r.1 ∧ r.1 ≤ pmax

/-! ### Helper lemmas -/

lemma pyInt_eq_floor {q : ℚ} (h : 0 ≤ q) : pyInt q = ⌊q⌋ := if_pos h

lemma le_pyInt {n : ℤ} {q : ℚ} (hn : 0 ≤ n) (h : (n : ℚ) ≤ q) : n ≤ pyInt q := by
  have hq : 0 ≤ q := le_trans (by exact_mod_cast hn) h
  rw [pyInt_eq_floor hq]
  exact Int.le_floor.mpr h

lemma pyInt_le {n : ℤ} {q : ℚ} (hn : 0 ≤ n) (h : q ≤ (n : ℚ)) : pyInt q ≤ n := by
  unfold pyInt
  split_ifs with h0
  · exact Int.floor_le_floor h |>.trans (by simp)
  · calc ⌈q⌉ ≤ ⌈(0 : ℚ)⌉ := Int.ceil_le_ceil (le_of_not_le h0)
    _ = 0 := by simp
    _ ≤ n := hn

lemma pyInt_mono {a b : ℚ} (h : a ≤ b) : pyInt a ≤ pyInt b := by
  unfold pyInt
  split_ifs with h1 h2 h2
  · exact Int.floor_le_floor h
  · exact absurd (le_trans h1 h) h2
  · have ha : ⌈a⌉ ≤ 0 := Int.ceil_le.mpr (by push_cast; linarith [le_of_not_le h1])
    have hb : 0 ≤ ⌊b⌋ := Int.floor_nonneg.mpr h2
    omega
  · exact Int.ceil_le_ceil h

/-- The sequential `risk_score` accumulation equals the spec's sum of
independent contributions. -/
lemma risk_score_eq (d : InputData) : risk_score d = referenceRiskScore d := by
  simp only [risk_score, referenceRiskScore, ageContribution, ltiContribution,
    delinquencyContribution, utilizationContribution, dpdContribution,
    openAccountsContribution, residenceContribution, loanTypeContribution]
  ring

lemma ageContribution_nonneg (x : ℚ) : 0 ≤ ageContribution x := by
  unfold ageContribution; split_ifs <;> norm_num

lemma ltiContribution_nonneg (x : ℚ) : 0 ≤ ltiContribution x := by
  unfold ltiContribution; split_ifs <;> norm_num

lemma delinquencyContribution_nonneg (x : ℚ) : 0 ≤ delinquencyContribution x := by
  unfold delinquencyContribution; split_ifs <;> norm_num

lemma utilizationContribution_nonneg (x : ℚ) : 0 ≤ utilizationContribution x := by
  unfold utilizationContribution; split_ifs <;> norm_num

lemma dpdContribution_nonneg (x : ℚ) : 0 ≤ dpdContribution x := by
  unfold dpdContribution; split_ifs <;> norm_num

lemma openAccountsContribution_nonneg (x : ℚ) : 0 ≤ openAccountsContribution x := by
  unfold openAccountsContribution; split_ifs <;> norm_num

lemma residenceContribution_nonneg (x : String) : 0 ≤ residenceContribution x := by
  unfold residenceContribution; split_ifs <;> norm_num

lemma loanTypeContribution_nonneg (x : String) : 0 ≤ loanTypeContribution x := by
  unfold loanTypeContribution; split_ifs <;> norm_num

lemma referenceRiskScore_nonneg (d : InputData) : 0 ≤ referenceRiskScore d := by
  unfold referenceRiskScore
  have h1 := ageContribution_nonneg d.age
  have h2 := ltiContribution_nonneg d.loan_to_income
  have h3 := delinquencyContribution_nonneg d.delinquency_ratio
  have h4 := utilizationContribution_nonneg d.credit_utilization_ratio
  have h5 := dpdContribution_nonneg d.avg_dpd_per_delinquency
  have h6 := openAccountsContribution_nonneg d.num_open_accounts
  have h7 := residenceContribution_nonneg d.residence_type
  have h8 := loanTypeContribution_nonneg d.loan_type
  omega

lemma referenceDefaultProbability_nonneg (d : InputData) :
    0 ≤ referenceDefaultProbability d := by
  unfold referenceDefaultProbability
  refine le_min ?_ (by norm_num)
  have := referenceRiskScore_nonneg d
  positivity

lemma referenceDefaultProbability_le_cap (d : InputData) :
    referenceDefaultProbability d ≤ 0.99 :=
  min_le_right _ _

lemma referenceCreditScore_lower (d : InputData) : 306 ≤ referenceCreditScore d := by
  unfold referenceCreditScore
  have hp := referenceDefaultProbability_le_cap d
  refine le_pyInt (by norm_num) ?_
  push_cast
  norm_num at hp ⊢
  linarith

lemma referenceCreditScore_upper (d : InputData) : referenceCreditScore d ≤ 900 := by
  unfold referenceCreditScore
  have hp := referenceDefaultProbability_nonneg d
  refine pyInt_le (by norm_num) ?_
  push_cast
  linarith

/-- The heuristic scorer expressed through the reference quantities. -/
lemma calculate_credit_score_eq (d : InputData) :
    calculate_credit_score d 300 600 =
      (referenceDefaultProbability d, referenceCreditScore d,
        get_rating (referenceCreditScore d)) := by
  simp only [calculate_credit_score, referenceCreditScore,
    referenceDefaultProbability, risk_score_eq]

lemma referenceRating_eq_get_rating {s : ℤ} (h1 : 306 ≤ s) (h2 : s ≤ 900) :
    referenceRating s = some (get_rating s) := by
  unfold referenceRating get_rating
  split_ifs <;> first | rfl | omega

lemma get_rating_mem {s : ℤ} (h1 : 306 ≤ s) (h2 : s ≤ 900) :
    get_rating s = "Poor" ∨ get_rating s = "Average" ∨ get_rating s = "Good" ∨
      get_rating s = "Excellent" := by
  unfold get_rating
  split_ifs with h1 h2 h3 h4
  · exact Or.inl rfl
  · exact Or.inr (Or.inl rfl)
  · exact Or.inr (Or.inr (Or.inl rfl))
  · exact Or.inr (Or.inr (Or.inr rfl))
  · omega

/-! ### Claim theorems -/

/-- C1: the heuristic scoring path computes exactly the reference definition
of spec section 4.1: the default probability is `min(referenceRiskScore/100,
0.99)` over the summed threshold-banded contributions, the credit score is
`300 + (1 − p) × 600` truncated to integer, and the rating is the one the
spec's bands assign to that score. -/
theorem heuristic_matches_spec_reference (d : InputData) :
    (calculate_credit_score d 300 600).1 = referenceDefaultProbability d ∧
    (calculate_credit_score d 300 600).2.1 = referenceCreditScore d ∧
    referenceRating ((calculate_credit_score d 300 600).2.1) =
      some ((calculate_credit_score d 300 600).2.2) := by
  rw [calculate_credit_score_eq]
  refine ⟨rfl, rfl, ?_⟩
  exact referenceRating_eq_get_rating (referenceCreditScore_lower d)
    (referenceCreditScore_upper d)

/-- C4 counterexample: on the spec's high-risk example the heuristic credit
score is not 300 as claimed (the clamped probability 0.99 yields 306). -/
theorem high_risk_example_score_ne_300 :
    (calculate_credit_score
        (prepare_input 22 300000 2000000 60 40 60 90 5 "Rented" "Medical" "Unsecured")
        300 600).2.1 ≠ 300 := by
  norm_num +decide [calculate_credit_score, risk_score, prepare_input, get_rating, pyInt]

/-- C4 amended: the high-risk example yields risk_score = 150, default
probability 0.99 (clamped), credit score 306, and rating Poor. -/
theorem high_risk_example_eval :
    risk_score (prepare_input 22 300000 2000000 60 40 60 90 5
        "Rented" "Medical" "Unsecured") = 150 ∧
    calculate_credit_score (prepare_input 22 300000 2000000 60 40 60 90 5
        "Rented" "Medical" "Unsecured") 300 600 = (0.99, 306, "Poor") := by
  constructor
  · norm_num +decide [risk_score, prepare_input]
  · norm_num +decide [calculate_credit_score, risk_score, prepare_input, get_rating, pyInt]

/-- C5: the low-risk example yields risk_score = 10 (age band only), default
probability 0.10, credit score 840, and rating Excellent. -/
theorem low_risk_example_eval :
    risk_score (prepare_input 30 500000 1000000 36 2 5 20 2
        "Owned" "Personal" "Secured") = 10 ∧
    calculate_credit_score (prepare_input 30 500000 1000000 36 2 5 20 2
        "Owned" "Personal" "Secured") 300 600 = (0.10, 840, "Excellent") := by
  constructor
  · norm_num +decide [risk_score, prepare_input]
  · norm_num +decide [calculate_credit_score, risk_score, prepare_input, get_rating, pyInt]

/-- C6: the rating is a function of the credit score alone (`get_rating`),
and it is monotone on [300, 900] in the order
Poor < Average < Good < Excellent. -/
theorem get_rating_monotone (s1 s2 : ℤ) (h1 : 300 ≤ s1) (h12 : s1 ≤ s2)
    (h2 : s2 ≤ 900) : ratingRank (get_rating s1) ≤ ratingRank (get_rating s2) := by
  unfold get_rating
  split_ifs <;> simp_all [ratingRank] <;> omega

/-- C6 witness: rating of score 400 is at most rating of score 800. -/
theorem get_rating_monotone_witness :
    ratingRank (get_rating 400) ≤ ratingRank (get_rating 800) :=
  get_rating_monotone 400 800 (by norm_num) (by norm_num) (by norm_num)

/-- C7: the division computing loan_to_income is guarded: whenever income is
not positive, both the heuristic input dictionary and the model-path feature
row carry loan_to_income = 0 instead of raising a division error. -/
theorem loan_to_income_guarded (age income la t dpd dr u n : ℚ)
    (res purpose lt : String) (h : income ≤ 0) :
    (prepare_input age income la t dpd dr u n res purpose lt).loan_to_income = 0 ∧
    (full_data age income la t dpd dr u n res purpose lt).loan_to_income = 0 := by
  constructor <;> simp [prepare_input, full_data, not_lt.mpr h]

/-- C7 witness: at income = 0 the prepared loan_to_income ratio is 0. -/
theorem loan_to_income_guarded_witness :
    (prepare_input 30 0 1000000 36 2 5 20 2 "Owned" "Personal"
        "Secured").loan_to_income = 0 ∧
    (full_data 30 0 1000000 36 2 5 20 2 "Owned" "Personal"
        "Secured").loan_to_income = 0 :=
  loan_to_income_guarded 30 0 1000000 36 2 5 20 2 "Owned" "Personal" "Secured"
    (by norm_num)

/-- C8: on the heuristic path the credit score always lies in [306, 900], so
the `Undefined` branch of `get_rating` is unreachable: the rating is always
one of Poor, Average, Good, Excellent. -/
theorem heuristic_score_bounds_and_rating_defined (d : InputData) :
    306 ≤ (calculate_credit_score d 300 600).2.1 ∧
    (calculate_credit_score d 300 600).2.1 ≤ 900 ∧
    ((calculate_credit_score d 300 600).2.2 = "Poor" ∨
      (calculate_credit_score d 300 600).2.2 = "Average" ∨
      (calculate_credit_score d 300 600).2.2 = "Good" ∨
      (calculate_credit_score d 300 600).2.2 = "Excellent") := by
  rw [calculate_credit_score_eq]
  exact ⟨referenceCreditScore_lower d, referenceCreditScore_upper d,
    get_rating_mem (referenceCreditScore_lower d) (referenceCreditScore_upper d)⟩

/-- C9: the heuristic path ignores loan_tenure_months and loan_purpose: two
attribute sets differing only in those fields produce identical triples, both
through `calculate_credit_score` on the prepared input and through the
heuristic branch of `predict`. -/
theorem heuristic_ignores_tenure_and_purpose (age income la t1 t2 dpd dr u n : ℚ)
    (res p1 p2 lt : String) :
    calculate_credit_score (prepare_input age income la t1 dpd dr u n res p1 lt)
        300 600 =
      calculate_credit_score (prepare_input age income la t2 dpd dr u n res p2 lt)
        300 600 ∧
    predict none age income la t1 dpd dr u n res p1 lt =
      predict none age income la t2 dpd dr u n res p2 lt :=
  ⟨rfl, rfl⟩

/-- C2: whenever the model-backed path ends in an error, `predict` returns
exactly the triple the heuristic path computes on the prepared input; the
error is absorbed (the return type of `predict` is a plain triple, so no
error can reach the caller). -/
theorem model_failure_falls_back_to_heuristic (mb : ModelBundle)
    (age income la t dpd dr u n : ℚ) (res purpose lt : String) (e : String)
    (h : modelPath mb age income la t dpd dr u n res purpose lt =
      Except.error e) :
    predict (some mb) age income la t dpd dr u n res purpose lt =
      calculate_credit_score
        (prepare_input age income la t dpd dr u n res purpose lt) 300 600 := by
  simp only [predict, h]

/-- C2 witness: a bundle whose invocation always raises yields the same
output as the heuristic path on identical inputs. -/
theorem model_failure_falls_back_to_heuristic_witness :
    predict (some ⟨fun _ => Except.error "boom"⟩)
        30 500000 1000000 36 2 5 20 2 "Owned" "Personal" "Secured" =
      calculate_credit_score
        (prepare_input 30 500000 1000000 36 2 5 20 2 "Owned" "Personal"
          "Secured") 300 600 :=
  model_failure_falls_back_to_heuristic ⟨fun _ => Except.error "boom"⟩
    30 500000 1000000 36 2 5 20 2 "Owned" "Personal" "Secured" "boom" rfl

/-- C3 counterexample: when the classifier reports probability 1 the
model-backed path surfaces default_probability = 1 > 0.99 — the 0.99 cap is
not enforced there, so the claimed bound fails on the model path. -/
theorem model_path_probability_exceeds_cap :
    ¬ ((predict (some ⟨fun _ => Except.ok 1⟩)
        30 500000 1000000 36 2 5 20 2 "Owned" "Personal" "Secured").1 ≤ 0.99) := by
  have h : (predict (some ⟨fun _ => Except.ok 1⟩)
      30 500000 1000000 36 2 5 20 2 "Owned" "Personal" "Secured").1 = 1 := rfl
  rw [h]; norm_num

lemma heuristic_outputWithin (d : InputData) :
    outputWithin (calculate_credit_score d 300 600) 0.99 := by
  rw [calculate_credit_score_eq]
  exact ⟨le_trans (by norm_num) (referenceCreditScore_lower d),
    referenceCreditScore_upper d, referenceDefaultProbability_nonneg d,
    referenceDefaultProbability_le_cap d⟩

lemma outputWithin_mono {r : ℚ × ℤ × String} {p1 p2 : ℚ} (h : p1 ≤ p2)
    (hr : outputWithin r p1) : outputWithin r p2 :=
  ⟨hr.1, hr.2.1, hr.2.2.1, le_trans hr.2.2.2 h⟩

lemma model_score_bounds {q : ℚ} (h0 : 0 ≤ q) (h1 : q ≤ 1) :
    300 ≤ pyInt (300 + (1 - q) * 600) ∧ pyInt (300 + (1 - q) * 600) ≤ 900 :=
  ⟨le_pyInt (by norm_num) (by push_cast; linarith),
    pyInt_le (by norm_num) (by push_cast; linarith)⟩

/-- C3 amended: on the heuristic path (no model, or model failure) the result
satisfies 300 ≤ credit_score ≤ 900 and 0 ≤ default_probability ≤ 0.99; on the
model-backed path, provided the classifier's probability output lies in
[0, 1], the result satisfies 300 ≤ credit_score ≤ 900 and
0 ≤ default_probability ≤ 1 — the 0.99 cap holds only heuristically. -/
theorem evaluator_output_bounds :
    (∀ (age income la t dpd dr u n : ℚ) (res purpose lt : String),
      outputWithin (predict none age income la t dpd dr u n res purpose lt)
        0.99) ∧
    ∀ (mb : ModelBundle) (age income la t dpd dr u n : ℚ)
      (res purpose lt : String),
      (∀ fd q, mb.run fd = Except.ok q → 0 ≤ q ∧ q ≤ 1) →
      outputWithin (predict (some mb) age income la t dpd dr u n res purpose lt)
        1 := by
  constructor
  · intro age income la t dpd dr u n res purpose lt
    exact heuristic_outputWithin _
  · intro mb age income la t dpd dr u n res purpose lt h
    simp only [predict]
    cases hm : modelPath mb age income la t dpd dr u n res purpose lt with
    | error e =>
      exact outputWithin_mono (by norm_num) (heuristic_outputWithin _)
    | ok r =>
      unfold modelPath at hm
      cases hr : mb.run (full_data age income la t dpd dr u n res purpose lt) with
      | error e => rw [hr] at hm; cases hm
      | ok q =>
        rw [hr] at hm
        simp only [Except.ok.injEq] at hm
        subst hm
        obtain ⟨h0, h1⟩ := h _ _ hr
        exact ⟨(model_score_bounds h0 h1).1, (model_score_bounds h0 h1).2, h0, h1⟩

/-- C3 amended witness: concrete bounds on the heuristic path and on the
model path with a classifier returning probability 1/2. -/
theorem evaluator_output_bounds_witness :
    outputWithin (predict none 30 500000 1000000 36 2 5 20 2
      "Owned" "Personal" "Secured") 0.99 ∧
    outputWithin (predict (some ⟨fun _ => Except.ok (1/2)⟩)
      30 500000 1000000 36 2 5 20 2 "Owned" "Personal" "Secured") 1 :=
  ⟨evaluator_output_bounds.1 30 500000 1000000 36 2 5 20 2
      "Owned" "Personal" "Secured",
    evaluator_output_bounds.2 ⟨fun _ => Except.ok (1/2)⟩
      30 500000 1000000 36 2 5 20 2 "Owned" "Personal" "Secured"
      (fun fd q hq => by
        have hq2 := Except.ok.inj hq
        subst hq2
        norm_num)⟩

lemma ltiContribution_mono {x y : ℚ} (h : x ≤ y) :
    ltiContribution x ≤ ltiContribution y := by
  unfold ltiContribution
  split_ifs <;> linarith

lemma delinquencyContribution_mono {x y : ℚ} (h : x ≤ y) :
    delinquencyContribution x ≤ delinquencyContribution y := by
  unfold delinquencyContribution
  split_ifs <;> linarith

lemma utilizationContribution_mono {x y : ℚ} (h : x ≤ y) :
    utilizationContribution x ≤ utilizationContribution y := by
  unfold utilizationContribution
  split_ifs <;> linarith

lemma dpdContribution_mono {x y : ℚ} (h : x ≤ y) :
    dpdContribution x ≤ dpdContribution y := by
  unfold dpdContribution
  split_ifs <;> linarith

/-- A larger risk score gives a no-smaller default probability and a
no-larger credit score. -/
lemma heuristic_mono_of_risk_le {d1 d2 : InputData}
    (h : referenceRiskScore d1 ≤ referenceRiskScore d2) :
    (calculate_credit_score d1 300 600).1 ≤ (calculate_credit_score d2 300 600).1 ∧
    (calculate_credit_score d2 300 600).2.1 ≤
      (calculate_credit_score d1 300 600).2.1 := by
  rw [calculate_credit_score_eq, calculate_credit_score_eq]
  have hp : referenceDefaultProbability d1 ≤ referenceDefaultProbability d2 := by
    unfold referenceDefaultProbability
    refine min_le_min ?_ le_rfl
    exact (div_le_div_iff_of_pos_right (by norm_num)).mpr (by exact_mod_cast h)
  refine ⟨hp, ?_⟩
  unfold referenceCreditScore
  apply pyInt_mono
  linarith

/-- C10: the heuristic path is monotone in each pure risk attribute:
raising delinquency_ratio, credit_utilization_ratio, avg_dpd_per_delinquency,
or loan_amount (with positive income, hence loan_to_income) never decreases
the default probability and never increases the credit score. -/
theorem heuristic_monotone_in_risk_attributes :
    (∀ (d : InputData) (x y : ℚ), x ≤ y →
      (calculate_credit_score { d with delinquency_ratio := x } 300 600).1 ≤
        (calculate_credit_score { d with delinquency_ratio := y } 300 600).1 ∧
      (calculate_credit_score { d with delinquency_ratio := y } 300 600).2.1 ≤
        (calculate_credit_score { d with delinquency_ratio := x } 300 600).2.1) ∧
    (∀ (d : InputData) (x y : ℚ), x ≤ y →
      (calculate_credit_score { d with credit_utilization_ratio := x }
          300 600).1 ≤
        (calculate_credit_score { d with credit_utilization_ratio := y }
          300 600).1 ∧
      (calculate_credit_score { d with credit_utilization_ratio := y }
          300 600).2.1 ≤
        (calculate_credit_score { d with credit_utilization_ratio := x }
          300 600).2.1) ∧
    (∀ (d : InputData) (x y : ℚ), x ≤ y →
      (calculate_credit_score { d with avg_dpd_per_delinquency := x }
          300 600).1 ≤
        (calculate_credit_score { d with avg_dpd_per_delinquency := y }
          300 600).1 ∧
      (calculate_credit_score { d with avg_dpd_per_delinquency := y }
          300 600).2.1 ≤
        (calculate_credit_score { d with avg_dpd_per_delinquency := x }
          300 600).2.1) ∧
    ∀ (age income la la' t dpd dr u n : ℚ) (res purpose lt : String),
      0 < income → la ≤ la' →
      (calculate_credit_score
          (prepare_input age income la t dpd dr u n res purpose lt) 300 600).1 ≤
        (calculate_credit_score
          (prepare_input age income la' t dpd dr u n res purpose lt) 300 600).1 ∧
      (calculate_credit_score
          (prepare_input age income la' t dpd dr u n res purpose lt)
          300 600).2.1 ≤
        (calculate_credit_score
          (prepare_input age income la t dpd dr u n res purpose lt)
          300 600).2.1 := by
  refine ⟨?_, ?_, ?_, ?_⟩
  · intro d x y h
    apply heuristic_mono_of_risk_le
    unfold referenceRiskScore
    dsimp only
    have := delinquencyContribution_mono h
    omega
  · intro d x y h
    apply heuristic_mono_of_risk_le
    unfold referenceRiskScore
    dsimp only
    have := utilizationContribution_mono h
    omega
  · intro d x y h
    apply heuristic_mono_of_risk_le
    unfold referenceRiskScore
    dsimp only
    have := dpdContribution_mono h
    omega
  · intro age income la la' t dpd dr u n res purpose lt hinc h
    apply heuristic_mono_of_risk_le
    unfold referenceRiskScore
    dsimp only [prepare_input]
    rw [if_pos hinc, if_pos hinc]
    have hlti : la / income ≤ la' / income :=
      (div_le_div_iff_of_pos_right hinc).mpr h
    have := ltiContribution_mono hlti
    omega

/-- C10 witness: monotonicity at concrete inputs for each of the four risk
attributes. -/
theorem heuristic_monotone_in_risk_attributes_witness :
    ((calculate_credit_score { sampleInput with delinquency_ratio := 20 }
        300 600).1 ≤
      (calculate_credit_score { sampleInput with delinquency_ratio := 60 }
        300 600).1) ∧
    ((calculate_credit_score { sampleInput with credit_utilization_ratio := 40 }
        300 600).1 ≤
      (calculate_credit_score { sampleInput with credit_utilization_ratio := 90 }
        300 600).1) ∧
    ((calculate_credit_score { sampleInput with avg_dpd_per_delinquency := 10 }
        300 600).1 ≤
      (calculate_credit_score { sampleInput with avg_dpd_per_delinquency := 40 }
        300 600).1) ∧
    ((calculate_credit_score (prepare_input 30 500000 1000000 36 2 5 20 2
        "Owned" "Personal" "Secured") 300 600).1 ≤
      (calculate_credit_score (prepare_input 30 500000 3000000 36 2 5 20 2
        "Owned" "Personal" "Secured") 300 600).1) :=
  ⟨(heuristic_monotone_in_risk_attributes.1 sampleInput 20 60 (by norm_num)).1,
    (heuristic_monotone_in_risk_attributes.2.1 sampleInput 40 90
      (by norm_num)).1,
    (heuristic_monotone_in_risk_attributes.2.2.1 sampleInput 10 40
      (by norm_num)).1,
    (heuristic_monotone_in_risk_attributes.2.2.2 30 500000 1000000 3000000 36
      2 5 20 2 "Owned" "Personal" "Secured" (by norm_num) (by norm_num)).1⟩

end CreditRisk
